import Mathlib

/-!
Shallow embedding of the ice-cream-finder backend: the vendor location state
and the discovery query of src/routes/sellers.ts, the admin toggle of
src/routes/admin.ts, and the role middleware of src/middleware/auth.ts, over
the sellers schema of src/db/schema.ts.

Modelling conventions: numeric JSON values and SQL decimals are rationals,
wall-clock timestamps are integers in milliseconds, SQL NULL and JS undefined
are Option. JavaScript truthiness on a number (null and 0 are falsy) is the
predicate truthy on Option ℚ; NaN is not representable in ℚ and is out of
scope. The haversine of calculateDistance needs real trigonometric functions,
so the query engine takes the distance function as an explicit parameter, and
the real haversine is embedded separately for its algebraic properties. The
stable JavaScript Array.prototype.sort is modelled by List.mergeSort.
-/

namespace IceCreamFinder

/-- staleness window in minutes, the constant STALE_THRESHOLD_MINUTES of
src/routes/sellers.ts line 9. -/
def STALE_THRESHOLD_MINUTES : Int := 15

/-- milliseconds subtracted from Date.now() at src/routes/sellers.ts line 29. -/
def staleThresholdMs : Int := STALE_THRESHOLD_MINUTES * 60 * 1000

/-- truthiness of a nullable number in JavaScript: null is falsy and 0 is
falsy, every other rational is truthy. -/
def truthy : Option ℚ → Bool
  | none => false
  | some q => decide (q ≠ 0)

/-- the SQL predicate gte(sellers.lastLocationUpdate, staleThreshold) of
src/routes/sellers.ts line 36, where staleThreshold = now - 15 minutes
(line 29); a NULL timestamp fails the comparison. -/
def isFreshRow (now : Int) : Option Int → Bool
  | none => false
  | some t => decide (now - staleThresholdMs ≤ t)

/-- one row of the sellers table (src/db/schema.ts): profile text fields are
omitted, they play no part in the claims. -/
structure Seller where
  id : Nat
  userId : Nat
  isActive : Bool
  latitude : Option ℚ
  longitude : Option ℚ
  lastLocationUpdate : Option Int
deriving DecidableEq

/-- one element of the JSON array returned by GET /active
(src/routes/sellers.ts lines 54-68), restricted to the fields the claims
speak about. -/
structure VendorResult where
  id : Nat
  latitude : Option ℚ
  longitude : Option ℚ
  distance : ℚ
deriving DecidableEq

/-- the per-seller record built at src/routes/sellers.ts lines 41-69: the
distance is computed only when the user coordinates and the seller
coordinates are all truthy (line 50), and is 0 otherwise (line 49). -/
def mkEntry (d : ℚ → ℚ → ℚ → ℚ → ℚ) (uLat uLng : Option ℚ) (s : Seller) :
    VendorResult :=
  { id := s.id
    latitude := s.latitude
    longitude := s.longitude
    distance :=
      if truthy uLat && truthy uLng && truthy s.latitude && truthy s.longitude then
        d (uLat.getD 0) (uLng.getD 0) (s.latitude.getD 0) (s.longitude.getD 0)
      else 0 }

/-- the pipeline of src/routes/sellers.ts lines 31-72: the database filter on
isActive and freshness (lines 33-38), the mapping to result records
(lines 40-70), and the truthiness filter on coordinates (line 72). -/
def survivors (d : ℚ → ℚ → ℚ → ℚ → ℚ) (now : Int) (uLat uLng : Option ℚ)
    (dbs : List Seller) : List VendorResult :=
  ((dbs.filter (fun s => s.isActive && isFreshRow now s.lastLocationUpdate)).map
      (mkEntry d uLat uLng)).filter
    (fun v => truthy v.latitude && truthy v.longitude)

/-- the radius filter of src/routes/sellers.ts line 75. -/
def withinRadius (d : ℚ → ℚ → ℚ → ℚ → ℚ) (now : Int) (uLat uLng : Option ℚ)
    (r : ℚ) (dbs : List Seller) : List VendorResult :=
  (survivors d now uLat uLng dbs).filter (fun v => decide (v.distance ≤ r))

/-- the full GET /active handler (src/routes/sellers.ts lines 22-79): when
both user coordinates are truthy (line 74) the survivors are filtered by
radius and stably sorted ascending by distance (lines 75-76), otherwise the
survivors are returned as they are. -/
def getActiveVendors (d : ℚ → ℚ → ℚ → ℚ → ℚ) (now : Int) (uLat uLng : Option ℚ)
    (r : ℚ) (dbs : List Seller) : List VendorResult :=
  if truthy uLat && truthy uLng then
    (withinRadius d now uLat uLng r dbs).mergeSort
      (fun a b => decide (a.distance ≤ b.distance))
  else survivors d now uLat uLng dbs

/-- the body of PATCH /location applied to one seller row
(src/routes/sellers.ts lines 191-206): when latitude and longitude are both
defined they are written together with lastLocationUpdate = now; when
isActive is defined it is written, and a false value additionally clears
latitude, longitude and lastLocationUpdate. -/
def patchLocation (now : Int) (lat lng : Option ℚ) (isActive : Option Bool)
    (s : Seller) : Seller :=
  let s1 :=
    match lat, lng with
    | some la, some ln =>
        { s with latitude := some la, longitude := some ln,
                 lastLocationUpdate := some now }
    | _, _ => s
  match isActive with
  | none => s1
  | some b =>
      if b then { s1 with isActive := true }
      else
        { s1 with isActive := false, latitude := none, longitude := none,
                  lastLocationUpdate := none }

/-- the admin PUT /vendors/:id/toggle-active update (src/routes/admin.ts
lines 142-148): it flips isActive and touches nothing else. -/
def adminToggleActive (s : Seller) : Seller :=
  { s with isActive := !s.isActive }

/-- the lookup of the seller row owned by the authenticated user
(src/routes/sellers.ts lines 182-185). -/
def findSellerByUserId (dbs : List Seller) (uid : Nat) : Option Seller :=
  dbs.find? (fun s => s.userId == uid)

/-- status codes the modelled routes can answer with. -/
inductive HttpStatus where
  | ok200
  | forbidden403
  | notFound404
deriving DecidableEq

/-- the PATCH /location route including the sellerOnly role middleware
(src/middleware/auth.ts lines 42-47) and the not-found guard
(src/routes/sellers.ts lines 187-189): a caller whose role is not seller is
answered 403 before any database access, a seller without a row is answered
404, and otherwise the row update of lines 191-210 is applied. -/
def patchLocationRoute (now : Int) (userType : String) (uid : Nat)
    (lat lng : Option ℚ) (isActive : Option Bool) (dbs : List Seller) :
    HttpStatus × List Seller :=
  if userType ≠ "seller" then (HttpStatus.forbidden403, dbs)
  else
    match findSellerByUserId dbs uid with
    | none => (HttpStatus.notFound404, dbs)
    | some seller =>
        (HttpStatus.ok200,
          dbs.map (fun s =>
            if s.id == seller.id then patchLocation now lat lng isActive seller
            else s))

/-- the two-argument arctangent, as Math.atan2 of JavaScript behaves on real
(non NaN, non signed-zero) inputs. -/
noncomputable def atan2 (y x : ℝ) : ℝ :=
  if 0 < x then Real.arctan (y / x)
  else if x < 0 then
    (if 0 ≤ y then Real.arctan (y / x) + Real.pi
     else Real.arctan (y / x) - Real.pi)
  else (if 0 < y then Real.pi / 2 else if y < 0 then -(Real.pi / 2) else 0)

/-- the haversine distance of src/routes/sellers.ts lines 11-20, with the
double-precision floats of the source idealised as real numbers. -/
noncomputable def calculateDistance (lat1 lon1 lat2 lon2 : ℝ) : ℝ :=
  let R : ℝ := 3959
  let dLat := (lat2 - lat1) * Real.pi / 180
  let dLon := (lon2 - lon1) * Real.pi / 180
  let a := Real.sin (dLat / 2) * Real.sin (dLat / 2) +
      Real.cos (lat1 * Real.pi / 180) * Real.cos (lat2 * Real.pi / 180) *
        Real.sin (dLon / 2) * Real.sin (dLon / 2)
  let c := 2 * atan2 (Real.sqrt a) (Real.sqrt (1 - a))
  R * c

/-- every record surviving the coordinate filter of line 72 has truthy
latitude and longitude. -/
theorem mem_survivors_truthy (d : ℚ → ℚ → ℚ → ℚ → ℚ) (now : Int)
    (uLat uLng : Option ℚ) (dbs : List Seller) (v : VendorResult)
    (hv : v ∈ survivors d now uLat uLng dbs) :
    truthy v.latitude = true ∧ truthy v.longitude = true := by
  have h := (List.mem_filter.mp hv).2
  simpa [Bool.and_eq_true] using h

/-- every record the query returns comes from the coordinate-filtered
survivor list, on either branch of the origin test. -/
theorem mem_getActive_mem_survivors (d : ℚ → ℚ → ℚ → ℚ → ℚ) (now : Int)
    (uLat uLng : Option ℚ) (r : ℚ) (dbs : List Seller) (v : VendorResult)
    (hv : v ∈ getActiveVendors d now uLat uLng r dbs) :
    v ∈ survivors d now uLat uLng dbs := by
  unfold getActiveVendors at hv
  split at hv
  · have h1 : v ∈ withinRadius d now uLat uLng r dbs := List.mem_mergeSort.mp hv
    unfold withinRadius at h1
    exact (List.mem_filter.mp h1).1
  · exact hv

/-- C1: the discovery query treats a timestamp as fresh iff it is at most 15
minutes old — the SQL comparison is gte, so the boundary at exactly 15
minutes IS fresh; an absent timestamp is never fresh. -/
theorem C1_fresh_iff_le (now t : Int) :
    (isFreshRow now (some t) = true ↔
      now - t ≤ STALE_THRESHOLD_MINUTES * 60 * 1000) ∧
    isFreshRow now none = false := by
  refine ⟨?_, rfl⟩
  simp only [isFreshRow, staleThresholdMs, STALE_THRESHOLD_MINUTES,
    decide_eq_true_eq]
  omega

/-- C1 counterexample: a timestamp exactly 15 minutes old (lastUpdate = 0 at
now = 900000 ms) is accepted as fresh by the code, while the claim requires
strictly less than 15 minutes. -/
theorem C1_counterexample :
    isFreshRow 900000 (some 0) = true ∧
    ¬ ((900000 : Int) - 0 < STALE_THRESHOLD_MINUTES * 60 * 1000) := by decide

/-- C2 (amended): the seller deactivation of PATCH /location always clears
coordinates and lastLocationUpdate regardless of prior state, but the admin
toggle-active operation flips the flag and leaves coordinates and
lastLocationUpdate untouched, so the clearing invariant is not preserved by
every operation. -/
theorem C2_deactivation_clears (now : Int) (lat lng : Option ℚ) (s : Seller) :
    ((patchLocation now lat lng (some false) s).isActive = false ∧
     (patchLocation now lat lng (some false) s).latitude = none ∧
     (patchLocation now lat lng (some false) s).longitude = none ∧
     (patchLocation now lat lng (some false) s).lastLocationUpdate = none) ∧
    ((adminToggleActive s).isActive = !s.isActive ∧
     (adminToggleActive s).latitude = s.latitude ∧
     (adminToggleActive s).longitude = s.longitude ∧
     (adminToggleActive s).lastLocationUpdate = s.lastLocationUpdate) := by
  refine ⟨?_, by simp [adminToggleActive]⟩
  cases lat <;> cases lng <;> simp [patchLocation]

/-- C2 counterexample: the admin toggle applied to an active vendor with
stored coordinates yields a state with isActive = false in which coordinates
and lastLocationUpdate are still present. -/
theorem C2_counterexample :
    (adminToggleActive ⟨1, 2, true, some 40, some (-75), some 100⟩).isActive
      = false ∧
    (adminToggleActive ⟨1, 2, true, some 40, some (-75), some 100⟩).latitude
      = some 40 ∧
    (adminToggleActive ⟨1, 2, true, some 40, some (-75), some 100⟩).longitude
      = some (-75) ∧
    (adminToggleActive
        ⟨1, 2, true, some 40, some (-75), some 100⟩).lastLocationUpdate
      = some 100 := by decide

/-- C5: evaluation of the code at the failing input — PATCH /location by the
owning seller with the out-of-range latitude 999 answers 200 and stores the
malformed coordinates; no validation and no InvalidArgument rejection occur
anywhere in the handler. -/
theorem C5_stores_out_of_range :
    patchLocationRoute 1000 "seller" 7 (some 999) (some 0) none
        [⟨1, 7, true, none, none, none⟩] =
      (HttpStatus.ok200, [⟨1, 7, true, some 999, some 0, some 1000⟩]) := by
  decide

/-- C6 (amended): a bare SetLocation (PATCH /location with coordinates and
without isActive) by an inactive vendor silently stores the coordinates and
the timestamp while leaving the vendor inactive; no rejection and no
reactivation happen. -/
theorem C6_bare_set_location_inactive (now : Int) (la ln : ℚ) (s : Seller)
    (h : s.isActive = false) :
    (patchLocation now (some la) (some ln) none s).isActive = false ∧
    (patchLocation now (some la) (some ln) none s).latitude = some la ∧
    (patchLocation now (some la) (some ln) none s).longitude = some ln ∧
    (patchLocation now (some la) (some ln) none s).lastLocationUpdate
      = some now := by
  simp [patchLocation, h]

/-- C6 witness: the amended statement evaluated on a concrete inactive
vendor. -/
theorem C6_bare_set_location_inactive_witness :
    (patchLocation 1000 (some 40) (some (-75)) none
        ⟨1, 2, false, none, none, none⟩).isActive = false ∧
    (patchLocation 1000 (some 40) (some (-75)) none
        ⟨1, 2, false, none, none, none⟩).latitude = some 40 ∧
    (patchLocation 1000 (some 40) (some (-75)) none
        ⟨1, 2, false, none, none, none⟩).longitude = some (-75) ∧
    (patchLocation 1000 (some 40) (some (-75)) none
        ⟨1, 2, false, none, none, none⟩).lastLocationUpdate = some 1000 :=
  C6_bare_set_location_inactive 1000 40 (-75) ⟨1, 2, false, none, none, none⟩
    (by decide)

/-- C6 counterexample: from an inactive vendor with no stored location, a
bare SetLocation reaches a state in which the vendor is still inactive but
has gained coordinates — the state the claim asserts unreachable. -/
theorem C6_counterexample :
    patchLocation 1000 (some 40) (some (-75)) none
        ⟨1, 2, false, none, none, none⟩ =
      ⟨1, 2, false, some 40, some (-75), some 1000⟩ := by decide

/-- C8: a caller without the seller role is answered 403 (authorization
failure) before any lookup, and a seller caller with no vendor row is
answered 404; in both cases the returned store is the input store,
unmodified. -/
theorem C8_auth_errors (now : Int) (userType : String) (uid : Nat)
    (lat lng : Option ℚ) (ia : Option Bool) (dbs : List Seller) :
    (userType ≠ "seller" →
      patchLocationRoute now userType uid lat lng ia dbs =
        (HttpStatus.forbidden403, dbs)) ∧
    (userType = "seller" → findSellerByUserId dbs uid = none →
      patchLocationRoute now userType uid lat lng ia dbs =
        (HttpStatus.notFound404, dbs)) := by
  constructor
  · intro h
    simp [patchLocationRoute, h]
  · intro h hnone
    simp [patchLocationRoute, h, hnone]

/-- C8 witness: the two error branches evaluated on concrete calls — a
searcher caller is answered 403, a seller caller with an empty store is
answered 404, and the store is unchanged both times. -/
theorem C8_auth_errors_witness :
    patchLocationRoute 0 "searcher" 1 none none none [] =
      (HttpStatus.forbidden403, []) ∧
    patchLocationRoute 0 "seller" 1 none none none [] =
      (HttpStatus.notFound404, []) :=
  ⟨(C8_auth_errors 0 "searcher" 1 none none none []).1 (by decide),
   (C8_auth_errors 0 "seller" 1 none none none []).2 rfl (by decide)⟩

/-- C4 (amended): with no origin supplied the result is exactly the survivor
list — active, fresh, with both coordinates truthy — in its original order,
with no radius filter and no sort, every entry carrying distance 0; when the
active-and-fresh database filter is empty the result is the empty list. -/
theorem C4_no_origin (d : ℚ → ℚ → ℚ → ℚ → ℚ) (now : Int) (r : ℚ)
    (dbs : List Seller) :
    getActiveVendors d now none none r dbs = survivors d now none none dbs ∧
    (∀ v ∈ getActiveVendors d now none none r dbs, v.distance = 0) ∧
    (dbs.filter (fun s => s.isActive && isFreshRow now s.lastLocationUpdate)
        = [] →
      getActiveVendors d now none none r dbs = []) := by
  have h1 : getActiveVendors d now none none r dbs =
      survivors d now none none dbs := by
    simp [getActiveVendors, truthy]
  refine ⟨h1, ?_, ?_⟩
  · intro v hv
    rw [h1] at hv
    have h2 := (List.mem_filter.mp hv).1
    obtain ⟨s, _, rfl⟩ := List.mem_map.mp h2
    simp [mkEntry, truthy]
  · intro h
    rw [h1]
    simp [survivors, h]

/-- C4 witness: with no origin and a store whose only vendor is inactive,
the query returns the empty list rather than an error. -/
theorem C4_no_origin_witness :
    getActiveVendors (fun _ _ _ _ => 0) 5 none none 50
      [⟨1, 1, false, some 3, some 4, some 5⟩] = [] :=
  (C4_no_origin (fun _ _ _ _ => 0) 5 50
    [⟨1, 1, false, some 3, some 4, some 5⟩]).2.2 (by decide)

/-- C4 counterexample: a vendor that is active, fresh and coordinate-bearing
(latitude 0 is present, not absent) is nevertheless dropped, so the result
is empty where the claim requires it to contain the vendor. -/
theorem C4_counterexample :
    (⟨1, 1, true, some 0, some 5, some 1000⟩ : Seller).latitude ≠ none ∧
    (⟨1, 1, true, some 0, some 5, some 1000⟩ : Seller).longitude ≠ none ∧
    (⟨1, 1, true, some 0, some 5, some 1000⟩ : Seller).isActive = true ∧
    isFreshRow 1000
      (⟨1, 1, true, some 0, some 5, some 1000⟩ : Seller).lastLocationUpdate
      = true ∧
    getActiveVendors (fun _ _ _ _ => 0) 1000 none none 50
      [⟨1, 1, true, some 0, some 5, some 1000⟩] = [] := by decide

/-- C9: a vendor one of whose stored coordinates is exactly 0 never appears
in the discovery result, even when it is in the store, active and fresh,
because the coordinate filter of line 72 tests numeric truthiness. -/
theorem C9_zero_coordinate_excluded (d : ℚ → ℚ → ℚ → ℚ → ℚ) (now : Int)
    (uLat uLng : Option ℚ) (r : ℚ) (dbs : List Seller) (s : Seller)
    (hmem : s ∈ dbs) (hact : s.isActive = true)
    (hfresh : isFreshRow now s.lastLocationUpdate = true)
    (hzero : s.latitude = some 0 ∨ s.longitude = some 0) :
    ∀ v ∈ getActiveVendors d now uLat uLng r dbs,
      ¬ (v.id = s.id ∧ v.latitude = s.latitude ∧ v.longitude = s.longitude) := by
  intro v hv hcon
  obtain ⟨hid, hla, hln⟩ := hcon
  have hs := mem_getActive_mem_survivors d now uLat uLng r dbs v hv
  obtain ⟨ht1, ht2⟩ := mem_survivors_truthy d now uLat uLng dbs v hs
  rcases hzero with h0 | h0
  · rw [hla, h0] at ht1
    simp [truthy] at ht1
  · rw [hln, h0] at ht2
    simp [truthy] at ht2

/-- C9 witness: in a store holding one vendor at latitude 0 and one normal
vendor, the single returned entry is not the zero-latitude vendor. -/
theorem C9_zero_coordinate_excluded_witness :
    ¬ ((⟨2, some 3, some 4, 0⟩ : VendorResult).id =
         (⟨1, 1, true, some 0, some 5, some 1000⟩ : Seller).id ∧
       (⟨2, some 3, some 4, 0⟩ : VendorResult).latitude =
         (⟨1, 1, true, some 0, some 5, some 1000⟩ : Seller).latitude ∧
       (⟨2, some 3, some 4, 0⟩ : VendorResult).longitude =
         (⟨1, 1, true, some 0, some 5, some 1000⟩ : Seller).longitude) :=
  C9_zero_coordinate_excluded (fun _ _ _ _ => 1) 1000 none none 50
    [⟨1, 1, true, some 0, some 5, some 1000⟩,
     ⟨2, 2, true, some 3, some 4, some 1000⟩]
    ⟨1, 1, true, some 0, some 5, some 1000⟩
    (by decide) (by decide) (by decide) (by decide)
    ⟨2, some 3, some 4, 0⟩ (by decide)

/-- C10: an origin one of whose components is exactly 0 is treated as no
origin at all — the query returns the same list as the origin-free query,
and every returned entry carries distance 0 — because the origin test of
lines 50 and 74 uses numeric truthiness. -/
theorem C10_zero_origin (d : ℚ → ℚ → ℚ → ℚ → ℚ) (now : Int)
    (uLat uLng : Option ℚ) (r : ℚ) (dbs : List Seller)
    (h : uLat = some 0 ∨ uLng = some 0) :
    getActiveVendors d now uLat uLng r dbs =
      getActiveVendors d now none none r dbs ∧
    ∀ v ∈ getActiveVendors d now uLat uLng r dbs, v.distance = 0 := by
  have hfalse : truthy uLat = false ∨ truthy uLng = false := by
    rcases h with h | h
    · left; rw [h]; rfl
    · right; rw [h]; rfl
  have hm : mkEntry d uLat uLng = mkEntry d none none := by
    funext s
    have hnone : truthy none = false := rfl
    rcases hfalse with hf | hf <;> simp [mkEntry, hf, hnone]
  have hsurv : survivors d now uLat uLng dbs = survivors d now none none dbs := by
    unfold survivors
    rw [hm]
  have hc : (truthy uLat && truthy uLng) = false := by
    rcases hfalse with hf | hf <;> simp [hf]
  have h1 : getActiveVendors d now uLat uLng r dbs =
      survivors d now none none dbs := by
    rw [getActiveVendors, hc]
    simpa using hsurv
  have h2 : getActiveVendors d now none none r dbs =
      survivors d now none none dbs := by
    simp [getActiveVendors, truthy]
  refine ⟨h1.trans h2.symm, ?_⟩
  intro v hv
  rw [h1] at hv
  have h3 := (List.mem_filter.mp hv).1
  obtain ⟨s, _, rfl⟩ := List.mem_map.mp h3
  simp [mkEntry, truthy]

/-- C10 witness: with origin latitude 0 the query answers exactly what the
origin-free query answers on the same store. -/
theorem C10_zero_origin_witness :
    getActiveVendors (fun _ _ _ _ => 1) 1000 (some 0) (some 7) 50
        [⟨2, 2, true, some 3, some 4, some 1000⟩] =
      getActiveVendors (fun _ _ _ _ => 1) 1000 none none 50
        [⟨2, 2, true, some 3, some 4, some 1000⟩] :=
  (C10_zero_origin (fun _ _ _ _ => 1) 1000 (some 0) (some 7) 50
    [⟨2, 2, true, some 3, some 4, some 1000⟩] (Or.inl rfl)).1

/-- C3 (amended): for every query whose origin has both components truthy
(nonzero), the result contains exactly the active, fresh vendors with both
coordinates truthy whose computed distance is at most the radius; it is
sorted ascending by distance, and ties keep their prior relative order (for
each distance value, filtering the result to that value gives exactly the
radius-filtered survivor list filtered to that value, in its order). -/
theorem C3_with_origin (d : ℚ → ℚ → ℚ → ℚ → ℚ) (now : Int) (uLat uLng : Option ℚ)
    (r : ℚ) (dbs : List Seller) (hLat : truthy uLat = true)
    (hLng : truthy uLng = true) :
    (∀ v : VendorResult,
      v ∈ getActiveVendors d now uLat uLng r dbs ↔
        ((∃ s ∈ dbs, s.isActive = true ∧
            isFreshRow now s.lastLocationUpdate = true ∧
            truthy s.latitude = true ∧ truthy s.longitude = true ∧
            v = mkEntry d uLat uLng s) ∧ v.distance ≤ r)) ∧
    List.Pairwise (fun a b : VendorResult => a.distance ≤ b.distance)
      (getActiveVendors d now uLat uLng r dbs) ∧
    (∀ q : ℚ,
      (getActiveVendors d now uLat uLng r dbs).filter (fun v => v.distance == q) =
        (withinRadius d now uLat uLng r dbs).filter (fun v => v.distance == q)) := by
  have hc : (truthy uLat && truthy uLng) = true := by rw [hLat, hLng]; rfl
  have hres : getActiveVendors d now uLat uLng r dbs =
      (withinRadius d now uLat uLng r dbs).mergeSort
        (fun a b => decide (a.distance ≤ b.distance)) := by
    rw [getActiveVendors, hc]
    rfl
  have htrans : ∀ a b c : VendorResult,
      decide (a.distance ≤ b.distance) = true →
      decide (b.distance ≤ c.distance) = true →
      decide (a.distance ≤ c.distance) = true := by
    intro a b c hab hbc
    simp only [decide_eq_true_eq] at hab hbc ⊢
    exact le_trans hab hbc
  have htotal : ∀ a b : VendorResult,
      (decide (a.distance ≤ b.distance) || decide (b.distance ≤ a.distance))
        = true := by
    intro a b
    simp only [Bool.or_eq_true, decide_eq_true_eq]
    exact le_total _ _
  refine ⟨?_, ?_, ?_⟩
  · intro v
    rw [hres, List.mem_mergeSort]
    unfold withinRadius survivors
    simp only [List.mem_filter, List.mem_map, Bool.and_eq_true,
      decide_eq_true_eq]
    constructor
    · rintro ⟨⟨⟨s, ⟨hs, hact, hfresh⟩, rfl⟩, hTl, hTr⟩, hr⟩
      exact ⟨⟨s, hs, hact, hfresh, by simpa [mkEntry] using hTl,
        by simpa [mkEntry] using hTr, rfl⟩, hr⟩
    · rintro ⟨⟨s, hs, hact, hfresh, htla, htln, rfl⟩, hr⟩
      exact ⟨⟨⟨s, ⟨hs, hact, hfresh⟩, rfl⟩, by simpa [mkEntry] using htla,
        by simpa [mkEntry] using htln⟩, hr⟩
  · rw [hres]
    exact (List.sorted_mergeSort htrans htotal _).imp
      (fun h => of_decide_eq_true h)
  · intro q
    rw [hres]
    have hpw : ((withinRadius d now uLat uLng r dbs).filter
        (fun v => v.distance == q)).Pairwise
        (fun a b : VendorResult => decide (a.distance ≤ b.distance) = true) := by
      apply List.pairwise_of_forall_mem_list
      intro a ha b hb
      have ha2 := (List.mem_filter.mp ha).2
      have hb2 := (List.mem_filter.mp hb).2
      simp only [beq_iff_eq] at ha2 hb2
      simp [ha2, hb2]
    have hsub : List.Sublist
        ((withinRadius d now uLat uLng r dbs).filter (fun v => v.distance == q))
        (withinRadius d now uLat uLng r dbs) :=
      List.filter_sublist _
    have h1 := List.sublist_mergeSort htrans htotal hpw hsub
    have h2 := h1.filter (fun v => v.distance == q)
    have hself : ((withinRadius d now uLat uLng r dbs).filter
          (fun v => v.distance == q)).filter (fun v => v.distance == q) =
        (withinRadius d now uLat uLng r dbs).filter (fun v => v.distance == q) :=
      List.filter_eq_self.mpr (fun a ha => (List.mem_filter.mp ha).2)
    rw [hself] at h2
    have hperm : List.Perm
        (((withinRadius d now uLat uLng r dbs).mergeSort
            (fun a b => decide (a.distance ≤ b.distance))).filter
          (fun v => v.distance == q))
        ((withinRadius d now uLat uLng r dbs).filter (fun v => v.distance == q)) :=
      (List.mergeSort_perm _ _).filter _
    exact (h2.eq_of_length hperm.length_eq.symm).symm

/-- C3 witness: the sortedness part of the amended statement on a concrete
query with a truthy origin. -/
theorem C3_with_origin_witness :
    List.Pairwise (fun a b : VendorResult => a.distance ≤ b.distance)
      (getActiveVendors (fun _ _ _ _ => 2) 1000 (some 1) (some 1) 50
        [⟨1, 1, true, some 3, some 4, some 1000⟩]) :=
  (C3_with_origin (fun _ _ _ _ => 2) 1000 (some 1) (some 1) 50
    [⟨1, 1, true, some 3, some 4, some 1000⟩] (by decide) (by decide)).2.1

/-- C3 counterexample: an origin (0, 10) is supplied, and under a distance
function that computes 100 miles for the lone vendor against radius 50 the
claim requires the vendor to be dropped; the code returns it anyway, with
distance 0, because the zero origin latitude fails the truthiness test. -/
theorem C3_counterexample :
    (50 : ℚ) < (fun _ _ _ _ => (100 : ℚ)) 0 10 3 4 ∧
    getActiveVendors (fun _ _ _ _ => (100 : ℚ)) 1000 (some 0) (some 10) 50
        [⟨1, 1, true, some 3, some 4, some 1000⟩] =
      [⟨1, some 3, some 4, 0⟩] := by decide

/-- C7: the haversine distance is symmetric in its two coordinate pairs, and
the distance from any coordinate pair to itself is 0 (over the idealised
real-number semantics of the floating-point source). -/
theorem C7_distance_symm_refl :
    (∀ lat1 lon1 lat2 lon2 : ℝ,
      calculateDistance lat1 lon1 lat2 lon2 =
        calculateDistance lat2 lon2 lat1 lon1) ∧
    (∀ lat lon : ℝ, calculateDistance lat lon lat lon = 0) := by
  have e1 : ∀ x y : ℝ, Real.sin ((x - y) * Real.pi / 180 / 2) =
      -Real.sin ((y - x) * Real.pi / 180 / 2) := by
    intro x y
    rw [show (x - y) * Real.pi / 180 / 2 = -((y - x) * Real.pi / 180 / 2) by ring,
      Real.sin_neg]
  constructor
  · intro lat1 lon1 lat2 lon2
    simp only [calculateDistance]
    rw [e1 lat1 lat2, e1 lon1 lon2]
    ring_nf
  · intro lat lon
    simp only [calculateDistance, sub_self, zero_mul, zero_div, Real.sin_zero,
      mul_zero, zero_add, add_zero, Real.sqrt_zero, sub_zero, Real.sqrt_one]
    have hA : atan2 0 1 = 0 := by
      unfold atan2
      rw [if_pos (by norm_num : (0 : ℝ) < 1)]
      simp [Real.arctan_zero]
    rw [hA]
    ring

end IceCreamFinder
